import Mathlib

/-!
Verification of the Locust traffic profile in
src/go-analytics-service/locust/locustfile.py.

The file defines one Locust user class, MetricsUser, with per-user
baselines set in on_start, four weighted tasks (send_normal_metric,
send_anomalous_metric, get_analytics, health_check) and a uniform
wait_time of between(0.01, 0.1) seconds.

Shallow embedding: the Python random module's state is modelled as a
stream (list) of standard-normal draws in ℚ; random.gauss(mu, sigma)
consumes one draw z and returns mu + sigma * z.  The wall clock value
int(time.time()) is an explicit integer parameter.  Each task method is
a pure function from the user state, the clock and the random stream to
the metric it builds, the HTTP request it issues, and the updated user
state and stream.
-/

namespace LocustFile

/-- The state of the Python random module, abstracted as the stream of
standard-normal variates it will produce; missing entries default to 0. -/
abbrev Rng := List ℚ

/-- One standard-normal draw from the stream. -/
def Rng.next (r : Rng) : ℚ × Rng := (r.headD 0, r.tail)

/-- random.gauss(mu, sigma): consumes one standard-normal draw z and
returns mu + sigma * z together with the advanced stream. -/
def gauss (mu sigma : ℚ) (r : Rng) : ℚ × Rng :=
  ((mu + sigma * (Rng.next r).1), (Rng.next r).2)

/-- Per-user state of MetricsUser: the two baselines assigned in on_start. -/
structure MetricsUser where
  base_rps : ℚ
  cpu_base : ℚ
deriving DecidableEq, Repr

/-- on_start: sets self.base_rps = 100.0 and self.cpu_base = 50.0.
A total function: it has no failure modes. -/
def on_start (u : MetricsUser) : MetricsUser :=
  { u with base_rps := 100, cpu_base := 50 }

/-- The metric dict built by the sending tasks:
\x7btimestamp, cpu, rps\x7d. -/
structure MetricSample where
  timestamp : ℤ
  cpu : ℚ
  rps : ℚ
deriving DecidableEq, Repr

/-- A JSON value as used in the payload: Python int or float. -/
inductive JsonVal
  | int (n : ℤ)
  | num (q : ℚ)
deriving DecidableEq, Repr

/-- The JSON object sent as the body of POST /metrics, as an ordered
list of key/value pairs (Python dicts keep insertion order). -/
def metricJson (m : MetricSample) : List (String × JsonVal) :=
  [("timestamp", JsonVal.int m.timestamp),
   ("cpu", JsonVal.num m.cpu),
   ("rps", JsonVal.num m.rps)]

inductive Method
  | post
  | get
deriving DecidableEq, Repr

/-- An HTTP request handed to the harness client. -/
structure Request where
  method : Method
  path : String
  body : Option (List (String × JsonVal))
  catch_response : Bool
deriving DecidableEq, Repr

/-- send_normal_metric: timestamp = int(time.time()); metric =
\x7btimestamp, cpu: cpu_base + gauss(0,5), rps: base_rps + gauss(0,10)\x7d;
posts it to /metrics.  Returns the metric, the request, and the
(unchanged) user state together with the advanced random stream. -/
def send_normal_metric (u : MetricsUser) (now : ℤ) (r : Rng) :
    MetricSample × Request × MetricsUser × Rng :=
  let g1 := gauss 0 5 r
  let g2 := gauss 0 10 g1.2
  let metric : MetricSample :=
    { timestamp := now, cpu := u.cpu_base + g1.1, rps := u.base_rps + g2.1 }
  (metric,
   { method := Method.post, path := "/metrics",
     body := some (metricJson metric), catch_response := true },
   u, g2.2)

/-- send_anomalous_metric: same shape, but rps = base_rps + gauss(150, 30)
(the high spike). -/
def send_anomalous_metric (u : MetricsUser) (now : ℤ) (r : Rng) :
    MetricSample × Request × MetricsUser × Rng :=
  let g1 := gauss 0 5 r
  let g2 := gauss 150 30 g1.2
  let metric : MetricSample :=
    { timestamp := now, cpu := u.cpu_base + g1.1, rps := u.base_rps + g2.1 }
  (metric,
   { method := Method.post, path := "/metrics",
     body := some (metricJson metric), catch_response := true },
   u, g2.2)

/-- get_analytics: GET /analyze, no body. -/
def get_analytics (u : MetricsUser) : Request × MetricsUser :=
  ({ method := Method.get, path := "/analyze", body := none,
     catch_response := false }, u)

/-- health_check: GET /health, no body. -/
def health_check (u : MetricsUser) : Request × MetricsUser :=
  ({ method := Method.get, path := "/health", body := none,
     catch_response := false }, u)

/-- The four tasks of MetricsUser. -/
inductive TaskName
  | sendNormal
  | sendAnomalous
  | getAnalytics
  | healthCheck
deriving DecidableEq, BEq, Repr

/-- The @task weights declared on the four methods: 10, 1, 1, 1. -/
def taskWeights : List (TaskName × ℕ) :=
  [(TaskName.sendNormal, 10), (TaskName.sendAnomalous, 1),
   (TaskName.getAnalytics, 1), (TaskName.healthCheck, 1)]

/-- Locust expands the weighted task set into a list where each task
appears as many times as its weight, and picks uniformly from it. -/
def weightedTasks : List TaskName :=
  (taskWeights.map (fun p => List.replicate p.2 p.1)).flatten

/-- Weighted random selection: a uniform index into the expanded list. -/
def pickTask (n : ℕ) : TaskName :=
  weightedTasks.getD (n % weightedTasks.length) TaskName.sendNormal

/-- Outcome of a request as reported by the harness. -/
inductive Outcome
  | success
  | failureStatus (code : ℕ)
  | timeout
  | connectionError
deriving DecidableEq, Repr

/-- Locust reporting semantics at a call site of this profile: with
catch_response = False the client reports the observed outcome to the
harness statistics as soon as the request completes; with
catch_response = True reporting is deferred to the returned response
context manager (its exit, or an explicit success or failure call).
Both POST /metrics call sites in the source pass catch_response = True
and discard the returned manager without entering it or marking it, so
for those requests no outcome is ever reported. -/
def reportedOutcome (req : Request) (o : Outcome) : Option Outcome :=
  if req.catch_response then none else some o

/-- One scheduling tick: the task is chosen by weighted selection from
the uniform index and then run.  The source contains no code that reads
the outcomes of earlier requests, so the list of past outcomes is an
explicit argument the tick ignores (send_normal_metric and the other
three methods take no such input). -/
def tick (u : MetricsUser) (now : ℤ) (pick : ℕ) (r : Rng)
    (_pastOutcomes : List Outcome) : List Request × MetricsUser × Rng :=
  match pickTask pick with
  | TaskName.sendNormal =>
      let s := send_normal_metric u now r
      ([s.2.1], s.2.2)
  | TaskName.sendAnomalous =>
      let s := send_anomalous_metric u now r
      ([s.2.1], s.2.2)
  | TaskName.getAnalytics =>
      let s := get_analytics u
      ([s.1], s.2, r)
  | TaskName.healthCheck =>
      let s := health_check u
      ([s.1], s.2, r)

/-- wait_time = between(0.01, 0.1): a uniform draw in [0.01, 0.1]
seconds, written as 0.01 + (0.1 - 0.01) * v for a uniform v in [0, 1].
It is a class attribute: the same for every user and every tick, and it
reads no per-user state. -/
def wait_time (_u : MetricsUser) (v : ℚ) : ℚ :=
  1/100 + (1/10 - 1/100) * v

end LocustFile

namespace LocustFile

/-- A sample user state after on_start, for concrete evaluations. -/
def u0 : MetricsUser := on_start { base_rps := 0, cpu_base := 0 }

/-- C1: send_normal_metric builds a MetricSample with
cpu = cpu_base + gauss(0,5), rps = base_rps + gauss(0,10) on the
advanced stream, and timestamp = now, for every user, clock value and
random-stream state. -/
theorem c1_send_normal_metric_shape (u : MetricsUser) (now : ℤ) (r : Rng) :
    (send_normal_metric u now r).1.cpu = u.cpu_base + (gauss 0 5 r).1 ∧
    (send_normal_metric u now r).1.rps
      = u.base_rps + (gauss 0 10 (gauss 0 5 r).2).1 ∧
    (send_normal_metric u now r).1.timestamp = now := by
  refine ⟨rfl, rfl, rfl⟩

/-- C2: send_anomalous_metric builds a MetricSample with
cpu = cpu_base + gauss(0,5) (the same cpu distribution as the normal
case), rps = base_rps + gauss(150,30), and timestamp = now. -/
theorem c2_send_anomalous_metric_shape (u : MetricsUser) (now : ℤ) (r : Rng) :
    (send_anomalous_metric u now r).1.cpu = u.cpu_base + (gauss 0 5 r).1 ∧
    (send_anomalous_metric u now r).1.rps
      = u.base_rps + (gauss 150 30 (gauss 0 5 r).2).1 ∧
    (send_anomalous_metric u now r).1.timestamp = now := by
  refine ⟨rfl, rfl, rfl⟩

/-- C3: on_start sets cpu_base to exactly 50.0 and base_rps to exactly
100.0 for every user; being a total function, it always succeeds. -/
theorem c3_on_start_sets_baselines (u : MetricsUser) :
    (on_start u).cpu_base = 50 ∧ (on_start u).base_rps = 100 := by
  exact ⟨rfl, rfl⟩

/-- C4: selection is weighted random over exactly the four tasks with
weights 10, 1, 1, 1: the expanded list has 13 slots, of which 10 pick
the normal-metric task and 1 each the other three, so the normal task
has probability 10/13 and the others 1/13 each under a uniform index. -/
theorem c4_weighted_selection :
    taskWeights.map Prod.fst
      = [TaskName.sendNormal, TaskName.sendAnomalous,
         TaskName.getAnalytics, TaskName.healthCheck] ∧
    taskWeights.map Prod.snd = [10, 1, 1, 1] ∧
    weightedTasks.length = 13 ∧
    ((List.range 13).filter
        (fun n => pickTask n == TaskName.sendNormal)).length = 10 ∧
    ((List.range 13).filter
        (fun n => pickTask n == TaskName.sendAnomalous)).length = 1 ∧
    ((List.range 13).filter
        (fun n => pickTask n == TaskName.getAnalytics)).length = 1 ∧
    ((List.range 13).filter
        (fun n => pickTask n == TaskName.healthCheck)).length = 1 ∧
    ((((List.range 13).filter
        (fun n => pickTask n == TaskName.sendNormal)).length : ℚ) / 13
      = 10 / 13) := by
  have hn : ((List.range 13).filter
      (fun n => pickTask n == TaskName.sendNormal)).length = 10 := by decide
  refine ⟨by decide, by decide, by decide, hn, by decide, by decide, by decide, ?_⟩
  rw [hn]
  norm_num

/-- C5: both generators send a JSON body whose keys are exactly
timestamp, cpu, rps in that order; the timestamp equals the clock value
at generation time, so timestamps of successive samples of one user are
non-decreasing whenever the clock is. -/
theorem c5_payload_keys_and_timestamp (u : MetricsUser) (now1 now2 : ℤ)
    (r1 r2 : Rng) (h : now1 ≤ now2) :
    ((send_normal_metric u now1 r1).2.1.body.getD []).map Prod.fst
      = ["timestamp", "cpu", "rps"] ∧
    ((send_anomalous_metric u now1 r1).2.1.body.getD []).map Prod.fst
      = ["timestamp", "cpu", "rps"] ∧
    (send_normal_metric u now1 r1).1.timestamp = now1 ∧
    (send_anomalous_metric u now1 r1).1.timestamp = now1 ∧
    (send_normal_metric u now1 r1).1.timestamp
      ≤ (send_normal_metric u now2 r2).1.timestamp ∧
    (send_normal_metric u now1 r1).1.timestamp
      ≤ (send_anomalous_metric u now2 r2).1.timestamp := by
  exact ⟨rfl, rfl, rfl, rfl, h, h⟩

/-- Witness for C5 at a concrete user, clock pair and streams. -/
theorem c5_witness :
    ((send_normal_metric u0 5 []).2.1.body.getD []).map Prod.fst
      = ["timestamp", "cpu", "rps"] ∧
    ((send_anomalous_metric u0 5 []).2.1.body.getD []).map Prod.fst
      = ["timestamp", "cpu", "rps"] ∧
    (send_normal_metric u0 5 []).1.timestamp = 5 ∧
    (send_anomalous_metric u0 5 []).1.timestamp = 5 ∧
    (send_normal_metric u0 5 []).1.timestamp
      ≤ (send_normal_metric u0 7 []).1.timestamp ∧
    (send_normal_metric u0 5 []).1.timestamp
      ≤ (send_anomalous_metric u0 7 []).1.timestamp :=
  c5_payload_keys_and_timestamp u0 5 7 [] [] (by decide)

/-- C6 counterexample: the claim quantifies over every seeding of the
random source, but a Gaussian draw is unbounded; on the stream whose
first standard-normal draw is 5 the cpu value is 75, outside [30, 70]. -/
theorem c6_counterexample :
    (send_normal_metric u0 0 [5, 0]).1.cpu = 75 ∧
    ¬ ((send_normal_metric u0 0 [5, 0]).1.cpu ≤ 70) := by
  have e : (send_normal_metric u0 0 [5, 0]).1.cpu = 75 := by
    show u0.cpu_base + (0 + 5 * ((5 : ℚ) :: [0]).headD 0) = 75
    norm_num [u0, on_start]
  exact ⟨e, by rw [e]; norm_num⟩

/-- C6 amended: whenever both standard-normal draws the normal generator
consumes lie within [-4, 4], a user with baselines 50/100 gets cpu in
[30, 70] (within 4 standard deviations of 50) and rps in [60, 140]
(within 4 standard deviations of 100). -/
theorem c6_amended_four_sigma (u : MetricsUser) (now : ℤ) (r : Rng)
    (hc : u.cpu_base = 50) (hr : u.base_rps = 100)
    (h1 : |(Rng.next r).1| ≤ 4) (h2 : |(Rng.next (Rng.next r).2).1| ≤ 4) :
    30 ≤ (send_normal_metric u now r).1.cpu ∧
    (send_normal_metric u now r).1.cpu ≤ 70 ∧
    60 ≤ (send_normal_metric u now r).1.rps ∧
    (send_normal_metric u now r).1.rps ≤ 140 := by
  have e1 : (send_normal_metric u now r).1.cpu
      = u.cpu_base + (0 + 5 * (Rng.next r).1) := rfl
  have e2 : (send_normal_metric u now r).1.rps
      = u.base_rps + (0 + 10 * (Rng.next (Rng.next r).2).1) := rfl
  rw [abs_le] at h1 h2
  rw [e1, e2, hc, hr]
  refine ⟨by linarith [h1.1], by linarith [h1.2],
          by linarith [h2.1], by linarith [h2.2]⟩

/-- Witness for the amended C6 on the stream [1, -1]. -/
theorem c6_amended_witness :
    30 ≤ (send_normal_metric u0 0 [1, -1]).1.cpu ∧
    (send_normal_metric u0 0 [1, -1]).1.cpu ≤ 70 ∧
    60 ≤ (send_normal_metric u0 0 [1, -1]).1.rps ∧
    (send_normal_metric u0 0 [1, -1]).1.rps ≤ 140 :=
  c6_amended_four_sigma u0 0 [1, -1] rfl rfl
    (by norm_num [Rng.next]) (by norm_num [Rng.next])

/-- C7: for a uniform variate v in [0, 1] the pacing delay lies in
[10 ms, 100 ms] (here measured in milliseconds as 1000 times the value
in seconds), and the delay function is identical for all users; it takes
no tick-dependent input at all. -/
theorem c7_wait_time_range (u1 u2 : MetricsUser) (v : ℚ)
    (h0 : 0 ≤ v) (h1 : v ≤ 1) :
    10 ≤ 1000 * wait_time u1 v ∧ 1000 * wait_time u1 v ≤ 100 ∧
    wait_time u1 v = wait_time u2 v := by
  unfold wait_time
  refine ⟨by nlinarith, by nlinarith, rfl⟩

/-- Witness for C7 at v = 1/2. -/
theorem c7_witness :
    10 ≤ 1000 * wait_time u0 (1/2) ∧ 1000 * wait_time u0 (1/2) ≤ 100 ∧
    wait_time u0 (1/2) = wait_time (on_start u0) (1/2) :=
  c7_wait_time_range u0 (on_start u0) (1/2) (by norm_num) (by norm_num)

/-- C8: no task mutates per-user state: each of the four operations
returns the user state it was given, so the baselines set by on_start
are unchanged for the whole lifetime of the user. -/
theorem c8_no_state_mutation (u : MetricsUser) (now : ℤ) (r : Rng) :
    (send_normal_metric u now r).2.2.1 = u ∧
    (send_anomalous_metric u now r).2.2.1 = u ∧
    (get_analytics u).2 = u ∧
    (health_check u).2 = u :=
  ⟨rfl, rfl, rfl, rfl⟩

/-- C9 fails on the code: both metric senders fire their POST /metrics
with catch_response = True and discard the response context manager, so
under the harness reporting semantics no outcome of a /metrics request
— in particular a failure such as HTTP 500 — is ever surfaced to the
harness: the failure is suppressed, not passed through.  The two GET
tasks use the default catch_response = False and do surface outcomes. -/
theorem c9_metrics_outcome_suppressed :
    (send_normal_metric u0 0 []).2.1.catch_response = true ∧
    reportedOutcome (send_normal_metric u0 0 []).2.1
      (Outcome.failureStatus 500) = none ∧
    (send_anomalous_metric u0 0 []).2.1.catch_response = true ∧
    reportedOutcome (send_anomalous_metric u0 0 []).2.1
      (Outcome.failureStatus 500) = none ∧
    reportedOutcome (get_analytics u0).1 (Outcome.failureStatus 500)
      = some (Outcome.failureStatus 500) ∧
    reportedOutcome (health_check u0).1 (Outcome.failureStatus 500)
      = some (Outcome.failureStatus 500) :=
  ⟨rfl, rfl, rfl, rfl, rfl, rfl⟩

/-- C10: each generator is a deterministic function of the baselines,
the clock and the random-stream state only: two users with equal
baselines produce identical results from the same clock and stream. -/
theorem c10_deterministic (u1 u2 : MetricsUser) (now : ℤ) (r : Rng)
    (hc : u1.cpu_base = u2.cpu_base) (hr : u1.base_rps = u2.base_rps) :
    send_normal_metric u1 now r = send_normal_metric u2 now r ∧
    send_anomalous_metric u1 now r = send_anomalous_metric u2 now r := by
  obtain ⟨a, b⟩ := u1
  obtain ⟨c, d⟩ := u2
  simp only at hc hr
  subst hc
  subst hr
  exact ⟨rfl, rfl⟩

/-- Witness for C10: two distinct user terms with equal baselines. -/
theorem c10_witness :
    send_normal_metric u0 3 [1, 2]
      = send_normal_metric (on_start { base_rps := 7, cpu_base := 8 }) 3 [1, 2] ∧
    send_anomalous_metric u0 3 [1, 2]
      = send_anomalous_metric (on_start { base_rps := 7, cpu_base := 8 }) 3 [1, 2] :=
  c10_deterministic u0 (on_start { base_rps := 7, cpu_base := 8 }) 3 [1, 2] rfl rfl

end LocustFile
